import Mathlib

/-!
Verification development for the ace-interview-demo repository.

The repository is a browser mock-interview application.  This file gives a
shallow embedding of the state-manipulating logic that the specification
talks about:

* the speech-transcription merge logic of the onresult / onerror / onend
  callbacks in src/components/interview-page.tsx (first revision of the
  component, the one with textBeforeRecordingRef and currentSpokenTextRef);
* the question / feedback request handlers of the same component;
* the multi-round bookkeeping (processAndStoreCurrentRound,
  handleEndInterviewAndGetFeedback) of the multi-round revision of the page;
* the two AI flow wrappers generateInterviewQuestionFlow and
  generateAnswerFeedbackFlow;
* the zod form schema roleIndustrySchema.

JavaScript strings are modelled by Lean String; the JS string operations
used by the code (trim, startsWith, endsWith, Array.prototype.join) are
embedded as executable List-Char based functions below, because the
corresponding Lean core functions are byte-position based and do not reduce
in the kernel.  React state reads inside a handler are modelled by the
snapshot the handler closure captured, and ref cells (useRef) are modelled
as explicit state threaded through the handler, which matches React
semantics: a closure sees the state values of the render it was created in,
while ref reads and writes are always live.
-/

namespace AceInterview

/-- JS s.trim(): drop whitespace from both ends.  Char.isWhitespace models
the JS whitespace class (space, tab, newline, carriage return). -/
def jsTrim (s : String) : String :=
  ⟨((s.data.dropWhile Char.isWhitespace).reverse.dropWhile Char.isWhitespace).reverse⟩

/-- JS s.startsWith(p). -/
def jsStartsWith (s p : String) : Bool :=
  p.data.isPrefixOf s.data

/-- JS s.endsWith(p). -/
def jsEndsWith (s p : String) : Bool :=
  p.data.reverse.isPrefixOf s.data.reverse

/-- JS array.join(sep). -/
def jsJoin (sep : String) : List String → String
  | [] => ""
  | [x] => x
  | x :: xs => x ++ sep ++ jsJoin sep xs

/-! ## Toasts -/

inductive ToastVariant
  | default
  | destructive
deriving DecidableEq, Repr

structure Toast where
  title : String
  description : String
  variant : ToastVariant
deriving DecidableEq, Repr

/-! ## Speech recognition: the onresult handler (interview-page.tsx 82-104)

An event carries a list of results; each result has an isFinal flag and a
transcript (event.results[i][0].transcript). -/

structure SpeechResult where
  isFinal : Bool
  transcript : String
deriving DecidableEq, Repr

/-- The finalTranscript accumulator of the onresult loop: every final result
contributes its transcript followed by a space, in order
(interview-page.tsx 86-92). -/
def finalTranscript (results : List SpeechResult) : String :=
  results.foldl (fun acc r => if r.isFinal then acc ++ r.transcript ++ " " else acc) ""

/-- The interimTranscript accumulator of the onresult loop: every non-final
result contributes its transcript, in order (interview-page.tsx 86-92). -/
def interimTranscript (results : List SpeechResult) : String :=
  results.foldl (fun acc r => if r.isFinal then acc else acc ++ r.transcript) ""

/-- currentSpokenTextRef.current after an onresult event
(interview-page.tsx 94): finalTranscript.trim() plus, when the interim part
is non-empty, a space (only when the untrimmed finalTranscript is non-empty)
and the interim part.  JS truthiness of a string is non-emptiness. -/
def currentSpokenText (results : List SpeechResult) : String :=
  let ft := finalTranscript results
  let it := interimTranscript results
  jsTrim ft ++ (if it = "" then "" else (if ft = "" then "" else " ") ++ it)

/-- The combinedAnswer computation of onresult (interview-page.tsx 96-102):
start from the captured pre-recording text; if the spoken text is non-empty,
insert a space when the prior text is non-empty, does not end with a space
and the spoken text does not start with a space, then append the spoken
text. -/
def combinedAnswer (textBefore spoken : String) : String :=
  if spoken = "" then textBefore
  else if textBefore ≠ "" ∧ jsEndsWith textBefore " " = false ∧ jsStartsWith spoken " " = false
  then textBefore ++ " " ++ spoken
  else textBefore ++ spoken

structure OnResultOut where
  spokenRef : String
  answer : String
deriving DecidableEq, Repr

/-- The onresult handler (interview-page.tsx 82-104): writes the session's
spoken text to currentSpokenTextRef and calls setAnswer with the combined
answer.  textBefore is the live value of textBeforeRecordingRef. -/
def onresult (textBefore : String) (results : List SpeechResult) : OnResultOut :=
  { spokenRef := currentSpokenText results
    answer := combinedAnswer textBefore (currentSpokenText results) }

/-! ## The onend handler (interview-page.tsx 116-131) -/

structure RecordingState where
  answer : String
  textBefore : String
  spoken : String
deriving DecidableEq, Repr

/-- The onend handler (interview-page.tsx 116-131): consolidate the answer
as textBeforeRecordingRef plus (with the same conditional space as
onresult) the trimmed spoken text, store the consolidated answer back into
textBeforeRecordingRef for the next session, and reset
currentSpokenTextRef.  Note the startsWith check is made on the untrimmed
spoken text and the appended text is the trimmed one, exactly as in the
source. -/
def onendStep (st : RecordingState) : RecordingState :=
  let fa :=
    if st.spoken = "" then st.textBefore
    else if st.textBefore ≠ "" ∧ jsEndsWith st.textBefore " " = false ∧
        jsStartsWith st.spoken " " = false
    then st.textBefore ++ " " ++ jsTrim st.spoken
    else st.textBefore ++ jsTrim st.spoken
  { answer := fa, textBefore := fa, spoken := "" }

/-- One whole recording session seen from the answer state: toggleRecording
(interview-page.tsx 224-229) captures the current answer into
textBeforeRecordingRef and clears currentSpokenTextRef; onresult events set
currentSpokenTextRef to the session's spoken text; stopping fires onend,
which consolidates.  The resulting answer depends only on the captured
answer and the session's final spoken text. -/
def recordingSession (ans spokenSession : String) : String :=
  (onendStep { answer := ans, textBefore := ans, spoken := spokenSession }).answer

/-- A sequence of recording sessions, each starting from the answer the
previous one left behind. -/
def runSessions (ans : String) : List String → String
  | [] => ans
  | sp :: rest => runSessions (recordingSession ans sp) rest

/-! ## The onerror handler (interview-page.tsx 106-114)

The speech handlers are installed once, in the mount effect whose
dependency array is [toast] (the toast function is stable and the
installation is guarded by speechRecognitionRef.current being unset), with
the explicit comment at interview-page.tsx 138 that the isRecording
dependency was removed.  The isRecording identifier inside the handler
therefore denotes the value captured when the handlers were installed,
which is the initial value false; setIsRecording(false) writes to the live
flag.  onerrorHandler takes both values explicitly, and installedOnerror
instantiates the captured value with what it actually is at installation
time. -/

def onerrorToast (err : String) : Toast :=
  { title := "Speech Recognition Error"
    description :=
      if err = "no-speech" then "No speech detected. Please try again."
      else "An error occurred during speech recognition."
    variant := ToastVariant.destructive }

/-- The onerror handler body: toast, then if the captured isRecording is
true, set the live isRecording to false.  Returns the toast and the new
live flag. -/
def onerrorHandler (capturedIsRecording liveIsRecording : Bool) (err : String) :
    Toast × Bool :=
  (onerrorToast err, if capturedIsRecording then false else liveIsRecording)

/-- The onerror handler as actually installed: the captured isRecording is
the mount-time value false. -/
def installedOnerror (liveIsRecording : Bool) (err : String) : Toast × Bool :=
  onerrorHandler false liveIsRecording err

/-! ## The page step machine and the two request handlers
(interview-page.tsx 157-211) -/

inductive Step
  | initial
  | question_generated
  | feedback_generated
deriving DecidableEq, Repr

/-- One feedback category of GenerateAnswerFeedbackOutputSchema
(generate-answer-feedback.ts 25-28): a text and a numeric score.  The
schema constrains the score to the range 1..5; that constraint is the
predicate FeedbackItem.schemaValid below. -/
structure FeedbackItem where
  text : String
  score : ℚ
deriving DecidableEq, Repr

def FeedbackItem.schemaValid (i : FeedbackItem) : Prop :=
  1 ≤ i.score ∧ i.score ≤ 5

/-- GenerateAnswerFeedbackOutputSchema (generate-answer-feedback.ts 30-35):
exactly the four categories overallFeedback, clarity, completeness,
relevance. -/
structure GenerateAnswerFeedbackOutput where
  overallFeedback : FeedbackItem
  clarity : FeedbackItem
  completeness : FeedbackItem
  relevance : FeedbackItem
deriving DecidableEq, Repr

def schemaValidOutput (o : GenerateAnswerFeedbackOutput) : Prop :=
  o.overallFeedback.schemaValid ∧ o.clarity.schemaValid ∧
    o.completeness.schemaValid ∧ o.relevance.schemaValid

/-- A concrete schema-valid feedback object, used to evaluate the flow on
an input. -/
def sampleFeedbackOutput : GenerateAnswerFeedbackOutput :=
  { overallFeedback := { text := "A strong, well-structured answer.", score := 4 }
    clarity := { text := "Clearly articulated.", score := 5 }
    completeness := { text := "Covers most key aspects.", score := 3 }
    relevance := { text := "Stays on topic.", score := 4 } }

/-- generateAnswerFeedbackFlow (generate-answer-feedback.ts 87-100): the
prompt call yields a schema-validated output or null; on null the flow
throws the fixed error message, otherwise it returns the output. -/
def generateAnswerFeedbackFlow (output : Option GenerateAnswerFeedbackOutput) :
    Except String GenerateAnswerFeedbackOutput :=
  match output with
  | none => Except.error "AI failed to generate feedback in the expected format."
  | some o => Except.ok o

/-- The UI state of the single-question page that the request handlers
touch (interview-page.tsx 50-66). -/
structure PageState where
  currentStep : Step
  generatedQuestion : Option String
  answer : String
  feedback : Option GenerateAnswerFeedbackOutput
  isLoadingQuestion : Bool
  isLoadingFeedback : Bool
  isStopwatchRunning : Bool
  textBefore : String
  spoken : String
  formRole : String
  formIndustry : String
deriving DecidableEq, Repr

/-- handleGenerateQuestion (interview-page.tsx 157-182) with the result of
the awaited generateInterviewQuestion call supplied explicitly: set the
loading flag, clear question, feedback, answer and both refs; on success
store the question, move to question_generated and start the stopwatch; on
failure toast the fixed destructive message; in both cases finally clear
the loading flag.  The handler makes exactly one call and performs no
retry. -/
def handleGenerateQuestion (s : PageState) (result : Except String String) :
    PageState × List Toast :=
  let s0 := { s with isLoadingQuestion := true, generatedQuestion := none,
                     feedback := none, answer := "", textBefore := "", spoken := "" }
  match result with
  | Except.ok q =>
      ({ s0 with generatedQuestion := some q, currentStep := Step.question_generated,
                 isStopwatchRunning := true, isLoadingQuestion := false }, [])
  | Except.error _ =>
      ({ s0 with isLoadingQuestion := false },
       [{ title := "Error",
          description := "Failed to generate interview question. Please try again.",
          variant := ToastVariant.destructive }])

/-- handleGetFeedback (interview-page.tsx 184-211) with the result of the
awaited generateAnswerFeedback call supplied explicitly: early return when
there is no question or the form role or industry is empty; otherwise set
the loading flag, clear the feedback, stop the stopwatch; on success store
the feedback and move to feedback_generated; on failure toast the fixed
destructive message; finally clear the loading flag. -/
def handleGetFeedback (s : PageState)
    (result : Except String GenerateAnswerFeedbackOutput) : PageState × List Toast :=
  if s.generatedQuestion = none ∨ s.formRole = "" ∨ s.formIndustry = "" then (s, [])
  else
    let s0 := { s with isLoadingFeedback := true, feedback := none,
                       isStopwatchRunning := false }
    match result with
    | Except.ok f =>
        ({ s0 with feedback := some f, currentStep := Step.feedback_generated,
                   isLoadingFeedback := false }, [])
    | Except.error _ =>
        ({ s0 with isLoadingFeedback := false },
         [{ title := "Error",
            description := "Failed to generate feedback. The AI might be having trouble, or your answer is too short. Please try again.",
            variant := ToastVariant.destructive }])

/-- A concrete page state at the initial step, used to evaluate the
handlers on an input. -/
def samplePageInitial : PageState :=
  { currentStep := Step.initial, generatedQuestion := none, answer := "",
    feedback := none, isLoadingQuestion := false, isLoadingFeedback := false,
    isStopwatchRunning := false, textBefore := "", spoken := "",
    formRole := "", formIndustry := "" }

/-- A concrete page state with a generated question, used to evaluate the
handlers on an input. -/
def samplePageQuestion : PageState :=
  { currentStep := Step.question_generated, generatedQuestion := some "Q",
    answer := "my answer", feedback := none, isLoadingQuestion := false,
    isLoadingFeedback := false, isStopwatchRunning := true, textBefore := "",
    spoken := "", formRole := "Engineer", formIndustry := "Tech" }

/-! ## The roleIndustrySchema form validation (interview-page.tsx 23-26) -/

structure RoleIndustryValues where
  role : String
  industry : String
deriving DecidableEq, Repr

/-- zod z.string().min(lo).max(hi): the string length must lie between the
two bounds.  String.length counts characters, modelling the JS length of
the texts typed in the form. -/
def zodStringLength (lo hi : Nat) (s : String) : Bool :=
  decide (lo ≤ s.length) && decide (s.length ≤ hi)

/-- roleIndustrySchema (interview-page.tsx 23-26): both role and industry
must have length at least 2 and at most 50. -/
def roleIndustrySchema (v : RoleIndustryValues) : Bool :=
  zodStringLength 2 50 v.role && zodStringLength 2 50 v.industry

/-- form.handleSubmit(handleGenerateQuestion) with zodResolver
(interview-page.tsx 68-71, 316): react-hook-form invokes the submit handler
with the form values exactly when the resolver validation succeeds.  The
returned value is the argument handed to handleGenerateQuestion, or none
when validation fails and the handler is not invoked. -/
def formSubmit (v : RoleIndustryValues) : Option RoleIndustryValues :=
  if roleIndustrySchema v then some v else none

/-! ## The textarea onChange handler (interview-page.tsx 395-408) -/

/-- The textarea onChange handler: while isRecording the edit is ignored
(the textarea is also rendered readOnly); otherwise the answer and
textBeforeRecordingRef are both set to the typed value. -/
def textareaOnChange (isRecording : Bool) (answer textBefore typed : String) :
    String × String :=
  if isRecording then (answer, textBefore) else (typed, typed)

/-- Events that can reach the answer state during a recording session:
keyboard edits of the textarea and speech-recognition onresult events. -/
inductive RecEvent
  | typed (s : String)
  | speech (results : List SpeechResult)
deriving DecidableEq, Repr

def isSpeechEvent : RecEvent → Bool
  | RecEvent.typed _ => false
  | RecEvent.speech _ => true

/-- One event step while isRecording is true: typed input goes through
textareaOnChange with isRecording = true, speech results go through
onresult. -/
def recStep (st : RecordingState) : RecEvent → RecordingState
  | RecEvent.typed s =>
      let p := textareaOnChange true st.answer st.textBefore s
      { st with answer := p.1, textBefore := p.2 }
  | RecEvent.speech results =>
      let o := onresult st.textBefore results
      { st with spoken := o.spokenRef, answer := o.answer }

def runRecording (st : RecordingState) (es : List RecEvent) : RecordingState :=
  es.foldl recStep st

/-! ## generateInterviewQuestionFlow (generate-interview-question.ts 53-69) -/

structure QuestionOut where
  question : String
deriving DecidableEq, Repr

structure GenerateInterviewQuestionInput where
  role : String
  industry : String
  interviewFocus : List String
deriving DecidableEq, Repr

/-- The focusText of the fallback branch
(generate-interview-question.ts 64): the comma-joined focus list when it is
non-empty, the string general suitability otherwise. -/
def focusText (interviewFocus : List String) : String :=
  if interviewFocus = [] then "general suitability" else jsJoin ", " interviewFocus

/-- The fallback question template (generate-interview-question.ts 65). -/
def fallbackQuestion (input : GenerateInterviewQuestionInput) : String :=
  "Tell me about a challenging project you worked on related to " ++ input.role ++
    " focusing on " ++ focusText input.interviewFocus ++ "."

/-- generateInterviewQuestionFlow (generate-interview-question.ts 59-68):
if the model output is missing or its question is empty (JS truthiness of
output.question), return the fallback question; otherwise return the model
output.  The flow is a total function: it never throws. -/
def generateInterviewQuestionFlow (input : GenerateInterviewQuestionInput)
    (output : Option QuestionOut) : QuestionOut :=
  match output with
  | none => { question := fallbackQuestion input }
  | some o =>
      if o.question = "" then { question := fallbackQuestion input } else o

/-! ## The multi-round page (src/unnamed/part_000) -/

structure InterviewRound where
  question : QuestionOut
  answer : String
deriving DecidableEq, Repr

structure RoundPayload where
  questionText : String
  answerText : String
deriving DecidableEq, Repr

/-- processAndStoreCurrentRound (part_000 279-286): when a question is
displayed, append the round with its answer when the trimmed answer is
non-empty; when the trimmed answer is empty, append the round with an empty
answer only when no stored round already has this question text. -/
def processAndStoreCurrentRound (gq : Option QuestionOut) (answer : String)
    (rounds : List InterviewRound) : List InterviewRound :=
  match gq with
  | none => rounds
  | some q =>
      if jsTrim answer ≠ "" then rounds ++ [{ question := q, answer := answer }]
      else if rounds.all (fun r => r.question.question ≠ q.question)
      then rounds ++ [{ question := q, answer := "" }]
      else rounds

/-- The update performed with findIndex and an index assignment at
part_000 373-380: replace the answer of the first round whose question text
matches, leaving the rest of the list unchanged. -/
def setAnswerAtFirstMatch : List InterviewRound → String → String → List InterviewRound
  | [], _, _ => []
  | r :: rs, qt, ans =>
      if r.question.question = qt then { question := r.question, answer := ans } :: rs
      else r :: setAnswerAtFirstMatch rs qt ans

/-- The first part of handleEndInterviewAndGetFeedback (part_000 372-385):
before requesting feedback, the handler updates the interviewRounds state
with the currently displayed question, replacing the answer of the first
stored round with the same question text, or appending a new round when the
question is not stored.  This is the value setInterviewRounds installs for
the next render. -/
def endInterviewStoredRounds (rounds : List InterviewRound) (gq : Option QuestionOut)
    (ans : String) : List InterviewRound :=
  match gq with
  | none => rounds
  | some q =>
      if rounds.any (fun r => r.question.question = q.question)
      then setAnswerAtFirstMatch rounds q.question ans
      else rounds ++ [{ question := q, answer := ans }]

/-- The payload computation in the setTimeout callback of
handleEndInterviewAndGetFeedback (part_000 397-453).  The callback is a
closure created inside the handler, so the interviewRounds identifier in it
denotes the snapshot captured when the handler ran, not the value just
installed with setInterviewRounds: React state setters do not mutate the
binding of the current render.  When the snapshot is empty but a question
is displayed and the trimmed answer is non-empty, a single-round payload is
sent; when the snapshot is empty otherwise, no request is made (the No
Answers toast); otherwise the snapshot is mapped to questionText /
answerText pairs and sent to generateOverallInterviewFeedback. -/
def endInterviewPayload (roundsSnapshot : List InterviewRound)
    (gq : Option QuestionOut) (ans : String) : Option (List RoundPayload) :=
  if roundsSnapshot = [] then
    match gq with
    | some q =>
        if jsTrim ans ≠ "" then
          some [{ questionText := q.question, answerText := ans }]
        else none
    | none => none
  else
    some (roundsSnapshot.map fun r =>
      { questionText := r.question.question, answerText := r.answer })

/-- handleEndInterviewAndGetFeedback (part_000 368-454), as a function of
the state snapshot the handler captured: returns the interviewRounds value
installed for the next render together with the payload actually sent. -/
def handleEndInterview (rounds : List InterviewRound) (gq : Option QuestionOut)
    (ans : String) : List InterviewRound × Option (List RoundPayload) :=
  (endInterviewStoredRounds rounds gq ans, endInterviewPayload rounds gq ans)

/-! ## The single-question page as an event step machine

This machine captures, over the rendered UI of interview-page.tsx, which
user and network events are possible in which states: a button click is an
event only when the button is rendered and not disabled
(interview-page.tsx 308, 349, 373, 413, 298-302), and a call resolution is
an event only when a call of that kind is in flight.  pendingQ and pendingF
count the in-flight generateInterviewQuestion and generateAnswerFeedback
calls. -/

structure UIState where
  step : Step
  gq : Option String
  answer : String
  feedbackSet : Bool
  isLoadingQuestion : Bool
  isLoadingFeedback : Bool
  role : String
  industry : String
  pendingQ : Nat
  pendingF : Nat
deriving DecidableEq, Repr

def initState : UIState :=
  { step := Step.initial, gq := none, answer := "", feedbackSet := false,
    isLoadingQuestion := false, isLoadingFeedback := false,
    role := "", industry := "", pendingQ := 0, pendingF := 0 }

inductive UIEvent
  | clickGenerate (role industry : String)
  | resolveQuestionOk (q : String)
  | resolveQuestionErr
  | clickFeedback
  | resolveFeedbackOk
  | resolveFeedbackErr
  | setAnswerText (a : String)
  | startOver
deriving DecidableEq, Repr

/-- One step of the machine.  clickGenerate: the form is rendered only at
the initial step, the submit button is disabled while isLoadingQuestion,
and the zod resolver must accept the values; the handler then starts one
call and clears question, feedback and answer (interview-page.tsx 157-166,
308, 349).  resolveQuestion: the awaited call returns or throws
(interview-page.tsx 167-181).  clickFeedback: the button is rendered at
question_generated with a question present and is disabled while
isLoadingFeedback or when the trimmed answer is empty; the handler guard
also requires the form role and industry to be non-empty
(interview-page.tsx 184-191, 413).  setAnswerText: the textarea is
rendered at question_generated with a question present.  startOver: the
Start Over button is rendered whenever the step is not initial
(interview-page.tsx 298-302); handleStartOver resets the question, answer,
feedback, step and form but does not touch the loading flags or the
in-flight calls (interview-page.tsx 249-262). -/
def uiStep (s : UIState) : UIEvent → Option UIState
  | UIEvent.clickGenerate r i =>
      if s.step = Step.initial ∧ s.isLoadingQuestion = false ∧
          roleIndustrySchema { role := r, industry := i } = true then
        some { s with isLoadingQuestion := true, gq := none, feedbackSet := false,
                      answer := "", role := r, industry := i,
                      pendingQ := s.pendingQ + 1 }
      else none
  | UIEvent.resolveQuestionOk q =>
      if 0 < s.pendingQ then
        some { s with gq := some q, step := Step.question_generated,
                      isLoadingQuestion := false, pendingQ := s.pendingQ - 1 }
      else none
  | UIEvent.resolveQuestionErr =>
      if 0 < s.pendingQ then
        some { s with isLoadingQuestion := false, pendingQ := s.pendingQ - 1 }
      else none
  | UIEvent.clickFeedback =>
      if s.step = Step.question_generated ∧ s.gq.isSome = true ∧
          s.isLoadingFeedback = false ∧ jsTrim s.answer ≠ "" then
        if s.gq.isSome = true ∧ s.role ≠ "" ∧ s.industry ≠ "" then
          some { s with isLoadingFeedback := true, feedbackSet := false,
                        pendingF := s.pendingF + 1 }
        else some s
      else none
  | UIEvent.resolveFeedbackOk =>
      if 0 < s.pendingF then
        some { s with feedbackSet := true, step := Step.feedback_generated,
                      isLoadingFeedback := false, pendingF := s.pendingF - 1 }
      else none
  | UIEvent.resolveFeedbackErr =>
      if 0 < s.pendingF then
        some { s with isLoadingFeedback := false, pendingF := s.pendingF - 1 }
      else none
  | UIEvent.setAnswerText a =>
      if s.step = Step.question_generated ∧ s.gq.isSome = true then
        some { s with answer := a }
      else none
  | UIEvent.startOver =>
      if s.step ≠ Step.initial then
        some { s with step := Step.initial, gq := none, answer := "",
                      feedbackSet := false, role := "", industry := "" }
      else none

/-- States reachable from the initial render. -/
inductive Reachable : UIState → Prop
  | init : Reachable initState
  | next {s s' : UIState} {e : UIEvent} :
      Reachable s → uiStep s e = some s' → Reachable s'

/-- Run a list of events from the initial state; none when some event is
impossible in the state it is attempted in. -/
def runUI (es : List UIEvent) : Option UIState :=
  es.foldl (fun acc e => acc.bind fun s => uiStep s e) (some initState)

/-! ## Theorems -/

/-- Helper: the answer produced by combinedAnswer always extends the prior
text with the conditional single separating space and the spoken text. -/
theorem combinedAnswer_eq (tb spoken : String) :
    combinedAnswer tb spoken =
      tb ++
        (if spoken ≠ "" ∧ tb ≠ "" ∧ jsEndsWith tb " " = false ∧
            jsStartsWith spoken " " = false
         then " " else "") ++ spoken := by
  by_cases hs : spoken = ""
  · subst hs
    simp [combinedAnswer, String.append_empty]
  · by_cases hc : tb ≠ "" ∧ jsEndsWith tb " " = false ∧ jsStartsWith spoken " " = false
    · simp [combinedAnswer, hs, hc]
    · simp [combinedAnswer, hs, hc, String.append_empty]

/-- C1: every onresult event during a recording session sets the answer to
the captured pre-recording text, followed by the session's spoken text
(trimmed concatenated final transcript segments, then the current interim
transcript, as computed by currentSpokenText), with exactly one separating
space inserted between them when the prior text is non-empty, does not end
with a space, and the spoken text does not start with a space; the captured
prior text is always a prefix of the new answer, so previously typed text
is never truncated or altered. -/
theorem onresult_preserves_typed_text (tb : String) (rs : List SpeechResult) :
    (onresult tb rs).answer =
      tb ++
        (if currentSpokenText rs ≠ "" ∧ tb ≠ "" ∧ jsEndsWith tb " " = false ∧
            jsStartsWith (currentSpokenText rs) " " = false
         then " " else "") ++ currentSpokenText rs
    ∧ (onresult tb rs).spokenRef = currentSpokenText rs
    ∧ ∃ rest, (onresult tb rs).answer = tb ++ rest := by
  refine ⟨combinedAnswer_eq tb (currentSpokenText rs), rfl, ?_⟩
  refine ⟨(if currentSpokenText rs ≠ "" ∧ tb ≠ "" ∧ jsEndsWith tb " " = false ∧
      jsStartsWith (currentSpokenText rs) " " = false
    then " " else "") ++ currentSpokenText rs, ?_⟩
  rw [← String.append_assoc]
  exact combinedAnswer_eq tb (currentSpokenText rs)

/-- Helper: every recording session only appends to the answer it started
from. -/
theorem recordingSession_extends (ans sp : String) :
    ∃ rest, recordingSession ans sp = ans ++ rest := by
  unfold recordingSession onendStep
  by_cases hs : sp = ""
  · exact ⟨"", by simp [hs, String.append_empty]⟩
  · by_cases hc : ans ≠ "" ∧ jsEndsWith ans " " = false ∧ jsStartsWith sp " " = false
    · exact ⟨" " ++ jsTrim sp, by simp [hs, hc, String.append_assoc]⟩
    · exact ⟨jsTrim sp, by simp [hs, hc]⟩

/-- Helper: a sequence of recording sessions only ever appends to the
answer it started from. -/
theorem runSessions_extends (sps : List String) (a0 : String) :
    ∃ rest, runSessions a0 sps = a0 ++ rest := by
  induction sps generalizing a0 with
  | nil => exact ⟨"", by simp [runSessions, String.append_empty]⟩
  | cons sp rest ih =>
    obtain ⟨t, ht⟩ := recordingSession_extends a0 sp
    obtain ⟨u, hu⟩ := ih (recordingSession a0 sp)
    refine ⟨t ++ u, ?_⟩
    show runSessions (recordingSession a0 sp) rest = _
    rw [hu, ht, String.append_assoc]

/-- C2: when a recording session ends, onend consolidates the answer to the
pre-recording text plus (with the single conditional separating space) the
trimmed spoken text of the session, updates textBeforeRecordingRef to the
consolidated answer, and resets currentSpokenTextRef to the empty string;
consequently every sequence of recording sessions only appends after all
previously typed and previously spoken text, never overwriting it. -/
theorem onend_consolidates (st : RecordingState) (a0 : String) (sps : List String) :
    (onendStep st).answer =
      st.textBefore ++
        (if st.spoken ≠ "" ∧ st.textBefore ≠ "" ∧ jsEndsWith st.textBefore " " = false ∧
            jsStartsWith st.spoken " " = false
         then " " else "") ++ (if st.spoken = "" then "" else jsTrim st.spoken)
    ∧ (onendStep st).textBefore = (onendStep st).answer
    ∧ (onendStep st).spoken = ""
    ∧ ∃ rest, runSessions a0 sps = a0 ++ rest := by
  refine ⟨?_, rfl, rfl, runSessions_extends sps a0⟩
  unfold onendStep
  by_cases hs : st.spoken = ""
  · simp [hs, String.append_empty]
  · by_cases hc : st.textBefore ≠ "" ∧ jsEndsWith st.textBefore " " = false ∧
        jsStartsWith st.spoken " " = false
    · simp [hs, hc]
    · simp [hs, hc, String.append_empty]

/-- C3: evaluating the multi-round end-of-interview handler on the state
reached after one stored round.  Pressing Next Question after answering Q1
stores the round (first conjunct).  With Q2 then displayed and answered,
handleEndInterviewAndGetFeedback installs the updated rounds list
containing both rounds into the interviewRounds state, but the payload it
sends to generateOverallInterviewFeedback is built from the snapshot the
handler captured, which still lacks the Q2 round: only the Q1 round is sent
(second conjunct), contradicting the intent recorded in the source comment
that the delay ensures the state is updated from the last capture. -/
theorem endInterview_sends_stale_rounds :
    processAndStoreCurrentRound (some { question := "Q1" }) "A1" [] =
      [{ question := { question := "Q1" }, answer := "A1" }]
    ∧ handleEndInterview [{ question := { question := "Q1" }, answer := "A1" }]
        (some { question := "Q2" }) "A2" =
      ([{ question := { question := "Q1" }, answer := "A1" },
        { question := { question := "Q2" }, answer := "A2" }],
       some [{ questionText := "Q1", answerText := "A1" }]) := by
  constructor <;> rfl

/-- C4: generateAnswerFeedbackFlow, given the schema-validated optional
model output, fails with exactly the message AI failed to generate feedback
in the expected format precisely when the output is absent, and on success
returns the output unchanged, an object with the four categories
overallFeedback, clarity, completeness and relevance whose scores all lie
between 1 and 5. -/
theorem generateAnswerFeedback_schema (output : Option GenerateAnswerFeedbackOutput)
    (hvalid : ∀ o, output = some o → schemaValidOutput o) :
    (generateAnswerFeedbackFlow output =
        Except.error "AI failed to generate feedback in the expected format." ↔
      output = none)
    ∧ Option.elim output True (fun o =>
        generateAnswerFeedbackFlow output = Except.ok o ∧ schemaValidOutput o) := by
  cases output with
  | none => exact ⟨by simp [generateAnswerFeedbackFlow], trivial⟩
  | some o =>
    refine ⟨by simp [generateAnswerFeedbackFlow], rfl, hvalid o rfl⟩

/-- Witness for C4 at a concrete schema-valid model output. -/
theorem generateAnswerFeedback_schema_witness :
    (generateAnswerFeedbackFlow (some sampleFeedbackOutput) =
        Except.error "AI failed to generate feedback in the expected format." ↔
      some sampleFeedbackOutput = none)
    ∧ Option.elim (some sampleFeedbackOutput) True (fun o =>
        generateAnswerFeedbackFlow (some sampleFeedbackOutput) = Except.ok o ∧
          schemaValidOutput o) :=
  generateAnswerFeedback_schema (some sampleFeedbackOutput)
    (fun o ho => by
      injection ho with h
      subst h
      refine ⟨⟨?_, ?_⟩, ⟨?_, ?_⟩, ⟨?_, ?_⟩, ⟨?_, ?_⟩⟩ <;>
        norm_num [sampleFeedbackOutput, FeedbackItem.schemaValid])

/-- C5: when the awaited generateInterviewQuestion call rejects,
handleGenerateQuestion emits exactly the destructive error toast, resets
isLoadingQuestion to false, stores no question, and leaves currentStep at
initial; when the awaited generateAnswerFeedback call rejects,
handleGetFeedback emits exactly the destructive error toast, resets
isLoadingFeedback to false, stores no feedback, and currentStep stays at
question_generated instead of advancing to feedback_generated.  Neither
handler retries: each consumes exactly one call result. -/
theorem handlers_fail_soft (s t : PageState) (err1 err2 : String)
    (hs : s.currentStep = Step.initial)
    (hq : t.generatedQuestion ≠ none)
    (hr : t.formRole ≠ "") (hi : t.formIndustry ≠ "")
    (ht : t.currentStep = Step.question_generated) :
    (handleGenerateQuestion s (Except.error err1)).1.isLoadingQuestion = false
    ∧ (handleGenerateQuestion s (Except.error err1)).1.generatedQuestion = none
    ∧ (handleGenerateQuestion s (Except.error err1)).1.currentStep = Step.initial
    ∧ (handleGenerateQuestion s (Except.error err1)).2 =
        [{ title := "Error",
           description := "Failed to generate interview question. Please try again.",
           variant := ToastVariant.destructive }]
    ∧ (handleGetFeedback t (Except.error err2)).1.isLoadingFeedback = false
    ∧ (handleGetFeedback t (Except.error err2)).1.feedback = none
    ∧ (handleGetFeedback t (Except.error err2)).1.currentStep = Step.question_generated
    ∧ (handleGetFeedback t (Except.error err2)).2 =
        [{ title := "Error",
           description := "Failed to generate feedback. The AI might be having trouble, or your answer is too short. Please try again.",
           variant := ToastVariant.destructive }] := by
  have hcond : ¬(t.generatedQuestion = none ∨ t.formRole = "" ∨ t.formIndustry = "") := by
    push_neg
    exact ⟨hq, hr, hi⟩
  refine ⟨rfl, rfl, hs, rfl, ?_, ?_, ?_, ?_⟩
  all_goals simp only [handleGetFeedback, if_neg hcond]
  all_goals first | rfl | exact ht

/-- C6: evaluating the installed onerror handler.  It does emit the
destructive toast with the message No speech detected. Please try again.
for the error code no-speech and the generic message otherwise, but the
guarded setIsRecording(false) tests the isRecording value captured when the
handlers were installed (false), so with the live flag true the handler
leaves it true: the flag is never reset. -/
theorem installedOnerror_no_reset :
    installedOnerror true "no-speech" =
      ({ title := "Speech Recognition Error",
         description := "No speech detected. Please try again.",
         variant := ToastVariant.destructive }, true)
    ∧ installedOnerror true "network" =
      ({ title := "Speech Recognition Error",
         description := "An error occurred during speech recognition.",
         variant := ToastVariant.destructive }, true) := by
  constructor <;> rfl

/-- C7: roleIndustrySchema validation succeeds exactly when both the role
and the industry have length at least 2 and at most 50, and the submit
pipeline hands handleGenerateQuestion only values on which the validation
succeeded, unchanged. -/
theorem roleIndustrySchema_length_bounds (v w : RoleIndustryValues) :
    (roleIndustrySchema v = true ↔
      (2 ≤ v.role.length ∧ v.role.length ≤ 50 ∧
        2 ≤ v.industry.length ∧ v.industry.length ≤ 50))
    ∧ Option.all (fun w' => roleIndustrySchema w' && decide (w' = w)) (formSubmit w)
        = true := by
  constructor
  · simp [roleIndustrySchema, zodStringLength, and_assoc]
  · by_cases h : roleIndustrySchema w = true
    · simp [formSubmit, h]
    · simp [formSubmit, h]

/-- Helper: a non-empty string has positive length. -/
theorem length_pos_of_ne_empty (s : String) (h : s ≠ "") : 0 < s.length := by
  cases s with
  | mk data =>
    cases data with
    | nil => exact absurd rfl h
    | cons c cs => simp [String.length]

/-- C9: generateInterviewQuestionFlow is a total function that never
returns an empty question: when the model output is absent, and likewise
when its question field is the empty string, it returns the deterministic
fallback question built from the role and the comma-joined focus list (or
general suitability when the list is empty). -/
theorem questionFlow_fallback (input : GenerateInterviewQuestionInput)
    (output : Option QuestionOut) :
    0 < (generateInterviewQuestionFlow input output).question.length
    ∧ generateInterviewQuestionFlow input none = { question := fallbackQuestion input }
    ∧ generateInterviewQuestionFlow input (some { question := "" }) =
        { question := fallbackQuestion input }
    ∧ fallbackQuestion input =
        "Tell me about a challenging project you worked on related to " ++ input.role ++
          " focusing on " ++
          (if input.interviewFocus = [] then "general suitability"
           else jsJoin ", " input.interviewFocus) ++ "." := by
  refine ⟨?_, rfl, rfl, rfl⟩
  have hfb : 0 < (fallbackQuestion input).length := by
    have h1 : 0 <
        ("Tell me about a challenging project you worked on related to " : String).length := by
      decide
    unfold fallbackQuestion
    simp only [String.length_append]
    omega
  cases output with
  | none => exact hfb
  | some o =>
    by_cases h : o.question = ""
    · simpa [generateInterviewQuestionFlow, h] using hfb
    · simpa [generateInterviewQuestionFlow, h] using length_pos_of_ne_empty o.question h

/-- C10: while isRecording is true the textarea onChange handler ignores
the typed value, so a run of events during a recording session equals the
run of its speech events alone: two runs that differ only in typed input
while recording produce the same final recording state, whose answer
depends only on the pre-recording text and the speech-recognition
events. -/
theorem recording_ignores_typing (a tb typed : String) (st : RecordingState)
    (es es' : List RecEvent)
    (h : es.filter isSpeechEvent = es'.filter isSpeechEvent) :
    textareaOnChange true a tb typed = (a, tb)
    ∧ runRecording st es = runRecording st (es.filter isSpeechEvent)
    ∧ runRecording st es = runRecording st es' := by
  have key : ∀ (l : List RecEvent) (s : RecordingState),
      runRecording s l = runRecording s (l.filter isSpeechEvent) := by
    intro l
    induction l with
    | nil => intro s; rfl
    | cons e rest ih =>
      intro s
      cases e with
      | typed x => exact ih s
      | speech rs =>
        show runRecording (recStep s (RecEvent.speech rs)) rest = _
        exact ih (recStep s (RecEvent.speech rs))
  refine ⟨rfl, key es st, ?_⟩
  calc runRecording st es = runRecording st (es.filter isSpeechEvent) := key es st
    _ = runRecording st (es'.filter isSpeechEvent) := by rw [h]
    _ = runRecording st es' := (key es' st).symm

/-- Witness for C5 at concrete page states and error values. -/
theorem handlers_fail_soft_witness :
    (handleGenerateQuestion samplePageInitial (Except.error "boom")).1.isLoadingQuestion = false
    ∧ (handleGenerateQuestion samplePageInitial (Except.error "boom")).1.generatedQuestion = none
    ∧ (handleGenerateQuestion samplePageInitial (Except.error "boom")).1.currentStep = Step.initial
    ∧ (handleGenerateQuestion samplePageInitial (Except.error "boom")).2 =
        [{ title := "Error",
           description := "Failed to generate interview question. Please try again.",
           variant := ToastVariant.destructive }]
    ∧ (handleGetFeedback samplePageQuestion (Except.error "crash")).1.isLoadingFeedback = false
    ∧ (handleGetFeedback samplePageQuestion (Except.error "crash")).1.feedback = none
    ∧ (handleGetFeedback samplePageQuestion (Except.error "crash")).1.currentStep =
        Step.question_generated
    ∧ (handleGetFeedback samplePageQuestion (Except.error "crash")).2 =
        [{ title := "Error",
           description := "Failed to generate feedback. The AI might be having trouble, or your answer is too short. Please try again.",
           variant := ToastVariant.destructive }] :=
  handlers_fail_soft samplePageInitial samplePageQuestion "boom" "crash" rfl
    (by decide) (by decide) (by decide) rfl

/-- Witness for C10 at a concrete recording state and concrete event lists
that differ only in typed input. -/
theorem recording_ignores_typing_witness :
    textareaOnChange true "x" "x" "typed" = ("x", "x")
    ∧ runRecording { answer := "x", textBefore := "x", spoken := "" }
        [RecEvent.typed "intruder", RecEvent.speech [{ isFinal := true, transcript := "hello" }]] =
      runRecording { answer := "x", textBefore := "x", spoken := "" }
        ([RecEvent.typed "intruder",
          RecEvent.speech [{ isFinal := true, transcript := "hello" }]].filter isSpeechEvent)
    ∧ runRecording { answer := "x", textBefore := "x", spoken := "" }
        [RecEvent.typed "intruder", RecEvent.speech [{ isFinal := true, transcript := "hello" }]] =
      runRecording { answer := "x", textBefore := "x", spoken := "" }
        [RecEvent.speech [{ isFinal := true, transcript := "hello" }]] :=
  recording_ignores_typing "x" "x" "typed" { answer := "x", textBefore := "x", spoken := "" }
    [RecEvent.typed "intruder", RecEvent.speech [{ isFinal := true, transcript := "hello" }]]
    [RecEvent.speech [{ isFinal := true, transcript := "hello" }]] rfl

/-- Helper: folding the event interpreter from a dead accumulator stays
dead. -/
theorem uiFold_none (rest : List UIEvent) :
    rest.foldl (fun acc e => acc.bind fun st => uiStep st e) none = none := by
  induction rest with
  | nil => rfl
  | cons e r ih => exact ih

/-- Helper: every state produced by runUI is reachable. -/
theorem reachable_of_runUI (es : List UIEvent) (s : UIState) (h : runUI es = some s) :
    Reachable s := by
  suffices H : ∀ (l : List UIEvent) (a z : UIState), Reachable a →
      l.foldl (fun acc e => acc.bind fun st => uiStep st e) (some a) = some z →
      Reachable z by
    exact H es initState s Reachable.init h
  intro l
  induction l with
  | nil =>
    intro a z ha hz
    rw [List.foldl_nil, Option.some.injEq] at hz
    exact hz ▸ ha
  | cons e r ih =>
    intro a z ha hz
    rw [List.foldl_cons] at hz
    cases he : uiStep a e with
    | none =>
      rw [show (some a).bind (fun st => uiStep st e) = none by simp [he]] at hz
      rw [uiFold_none] at hz
      exact absurd hz (by simp)
    | some a' =>
      rw [show (some a).bind (fun st => uiStep st e) = some a' by simp [he]] at hz
      exact ih a' z (Reachable.next ha he) hz

/-- C8 (amended): in every reachable state of the UI machine, at most one
question call and at most one feedback call is in flight, and a pending
call of either kind implies the corresponding loading flag is set, so the
button gating makes it impossible to start a second request of the same
kind before the pending one resolves. -/
theorem ui_single_flight (s : UIState) (h : Reachable s) :
    s.pendingQ ≤ (if s.isLoadingQuestion then 1 else 0)
    ∧ s.pendingF ≤ (if s.isLoadingFeedback then 1 else 0) := by
  induction h with
  | init => simp [initState]
  | @next s s' e hR hstep ih =>
    obtain ⟨ihQ, ihF⟩ := ih
    cases e with
    | clickGenerate r i =>
      simp only [uiStep] at hstep
      split at hstep
      · rename_i hcond
        rw [Option.some.injEq] at hstep
        subst hstep
        refine ⟨?_, ihF⟩
        rw [hcond.2.1] at ihQ
        simp at ihQ ⊢
        omega
      · exact absurd hstep (by simp)
    | resolveQuestionOk q =>
      simp only [uiStep] at hstep
      split at hstep
      · rw [Option.some.injEq] at hstep
        subst hstep
        refine ⟨?_, ihF⟩
        split at ihQ <;> simp <;> omega
      · exact absurd hstep (by simp)
    | resolveQuestionErr =>
      simp only [uiStep] at hstep
      split at hstep
      · rw [Option.some.injEq] at hstep
        subst hstep
        refine ⟨?_, ihF⟩
        split at ihQ <;> simp <;> omega
      · exact absurd hstep (by simp)
    | clickFeedback =>
      simp only [uiStep] at hstep
      split at hstep
      · rename_i hcond
        split at hstep
        · rw [Option.some.injEq] at hstep
          subst hstep
          refine ⟨ihQ, ?_⟩
          rw [hcond.2.2.1] at ihF
          simp at ihF ⊢
          omega
        · rw [Option.some.injEq] at hstep
          subst hstep
          exact ⟨ihQ, ihF⟩
      · exact absurd hstep (by simp)
    | resolveFeedbackOk =>
      simp only [uiStep] at hstep
      split at hstep
      · rw [Option.some.injEq] at hstep
        subst hstep
        refine ⟨ihQ, ?_⟩
        split at ihF <;> simp <;> omega
      · exact absurd hstep (by simp)
    | resolveFeedbackErr =>
      simp only [uiStep] at hstep
      split at hstep
      · rw [Option.some.injEq] at hstep
        subst hstep
        refine ⟨ihQ, ?_⟩
        split at ihF <;> simp <;> omega
      · exact absurd hstep (by simp)
    | setAnswerText a =>
      simp only [uiStep] at hstep
      split at hstep
      · rw [Option.some.injEq] at hstep
        subst hstep
        exact ⟨ihQ, ihF⟩
      · exact absurd hstep (by simp)
    | startOver =>
      simp only [uiStep] at hstep
      split at hstep
      · rw [Option.some.injEq] at hstep
        subst hstep
        exact ⟨ihQ, ihF⟩
      · exact absurd hstep (by simp)

/-- Witness for the amended C8 at the initial state. -/
theorem ui_single_flight_witness :
    initState.pendingQ ≤ (if initState.isLoadingQuestion then 1 else 0)
    ∧ initState.pendingF ≤ (if initState.isLoadingFeedback then 1 else 0) :=
  ui_single_flight initState Reachable.init

/-- C8 counterexample: a concrete reachable run of the UI in which two AI
calls are in flight at once.  The user generates a question, answers it,
requests feedback, presses Start Over while the feedback call is pending
(handleStartOver does not clear the loading flags or the in-flight call),
and submits the re-rendered initial form, starting a question call while
the feedback call is still pending. -/
theorem ui_two_calls_in_flight :
    runUI [UIEvent.clickGenerate "ab" "cd", UIEvent.resolveQuestionOk "Q1",
           UIEvent.setAnswerText "A1", UIEvent.clickFeedback, UIEvent.startOver,
           UIEvent.clickGenerate "ab" "cd"] =
      some { step := Step.initial, gq := none, answer := "", feedbackSet := false,
             isLoadingQuestion := true, isLoadingFeedback := true,
             role := "ab", industry := "cd", pendingQ := 1, pendingF := 1 }
    ∧ ∃ st, Reachable st ∧ st.pendingQ = 1 ∧ st.pendingF = 1 := by
  constructor
  · rfl
  · exact ⟨{ step := Step.initial, gq := none, answer := "", feedbackSet := false,
             isLoadingQuestion := true, isLoadingFeedback := true,
             role := "ab", industry := "cd", pendingQ := 1, pendingF := 1 },
           reachable_of_runUI
             [UIEvent.clickGenerate "ab" "cd", UIEvent.resolveQuestionOk "Q1",
              UIEvent.setAnswerText "A1", UIEvent.clickFeedback, UIEvent.startOver,
              UIEvent.clickGenerate "ab" "cd"] _ rfl, rfl, rfl⟩

end AceInterview
